import Mathlib

/-!
Shallow embedding of `src/same-different-selection/assets/old_generate_stimuli.py`.

The script draws geometric shapes (circle, square, triangle, star) onto a
220×220 canvas and saves one WEBP file per parameter tuple.  We model the
external drawing collaborator's painting calls as an explicit list of
`DrawOp` commands (the pixel output is a pure function of the background
color and this command list), Python integers as `ℤ` (Python `//` on
integers is floor division, `Int.fdiv`), Python floats as `ℝ` (float `//`
is also a floor, `Int.floor`), and Python `dict` lookup as an
`Option`-valued function where a missing key (`KeyError`) is `none`.
`save_shape` returns `Except`: an error models the uncaught `KeyError`
that aborts the call before anything is drawn or written, and a success
carries the draw-command list together with the output filename.
-/

/-- Primitive painting commands consumed by the external drawing
collaborator (PIL's `ImageDraw`): filled ellipse / rectangle given a
bounding box `[x0, y0, x1, y1]`, filled polygon given a vertex list. -/
inductive DrawOp : Type
  | ellipse (box : List ℤ) (color : String)
  | rectangle (box : List ℤ) (color : String)
  | polygon (points : List (ℝ × ℝ)) (color : String)

/-- `draw_circle(draw, center, radius, color)`: fills the ellipse with
bounding box `[x - radius, y - radius, x + radius, y + radius]`. -/
def draw_circle (center : ℤ × ℤ) (radius : ℤ) (color : String) : DrawOp :=
  let x := center.1
  let y := center.2
  DrawOp.ellipse [x - radius, y - radius, x + radius, y + radius] color

/-- `draw_square(draw, center, size, color)`: `half_size = size // 2`,
fills the rectangle `[x - half_size, y - half_size, x + half_size, y + half_size]`. -/
def draw_square (center : ℤ × ℤ) (size : ℤ) (color : String) : DrawOp :=
  let x := center.1
  let y := center.2
  let half_size := size.fdiv 2
  DrawOp.rectangle [x - half_size, y - half_size, x + half_size, y + half_size] color

/-- `draw_triangle(draw, center, size, color)`: `height = size * (3**0.5 / 2)`
(a float), apex `(x, y - height // 2)`, base corners
`(x ∓ size // 2, y + height // 2)`; note the horizontal offset is the
integer `size // 2` while the vertical offset is the float floor
`height // 2`. -/
noncomputable def draw_triangle (center : ℤ × ℤ) (size : ℤ) (color : String) : DrawOp :=
  let x := center.1
  let y := center.2
  let height : ℝ := (size : ℝ) * (Real.sqrt 3 / 2)
  let top_point : ℝ × ℝ := ((x : ℝ), (y : ℝ) - (⌊height / 2⌋ : ℝ))
  let left_point : ℝ × ℝ := ((x : ℝ) - ((size.fdiv 2 : ℤ) : ℝ), (y : ℝ) + (⌊height / 2⌋ : ℝ))
  let right_point : ℝ × ℝ := ((x : ℝ) + ((size.fdiv 2 : ℤ) : ℝ), (y : ℝ) + (⌊height / 2⌋ : ℝ))
  DrawOp.polygon [top_point, left_point, right_point] color

/-- `draw_star(draw, center, size, color)`: `half_size = size // 2`; for
`i in range(5)` appends the outer point at angle
`i * (2 * 3.14159 / 5) - 3.14159 / 2` and radius `half_size`, then the
inner point at that angle plus `3.14159 / 5` and radius `half_size * 0.5`.
The source uses the literal constant `3.14159`, not `math.pi`. -/
noncomputable def draw_star (center : ℤ × ℤ) (size : ℤ) (color : String) : DrawOp :=
  let x := center.1
  let y := center.2
  let half_size := size.fdiv 2
  let points : List (ℝ × ℝ) := (List.range 5).flatMap (fun i =>
    let angle : ℝ := (i : ℝ) * (2 * 3.14159 / 5) - 3.14159 / 2
    let outer_x := (x : ℝ) + (half_size : ℝ) * Real.cos angle
    let outer_y := (y : ℝ) + (half_size : ℝ) * Real.sin angle
    let inner_angle := angle + 3.14159 / 5
    let inner_x := (x : ℝ) + (half_size : ℝ) * 0.5 * Real.cos inner_angle
    let inner_y := (y : ℝ) + (half_size : ℝ) * 0.5 * Real.sin inner_angle
    [(outer_x, outer_y), (inner_x, inner_y)])
  DrawOp.polygon points color

/-- `draw_shape(draw, shape, center, size, color)`: dispatch by shape tag;
an unrecognized tag falls through every branch and draws nothing. -/
noncomputable def draw_shape (shape : String) (center : ℤ × ℤ) (size : ℤ) (color : String) :
    List DrawOp :=
  if shape = "circle" then [draw_circle center (size.fdiv 2) color]
  else if shape = "square" then [draw_square center size color]
  else if shape = "triangle" then [draw_triangle center size color]
  else if shape = "star" then [draw_star center size color]
  else []

/-- The vertex list of a `polygon` command (empty for the other commands). -/
def polygonVertices : DrawOp → List (ℝ × ℝ)
  | DrawOp.polygon pts _ => pts
  | _ => []

/-- `size_mapping = {35: 'sm', 70: 'med', 105: 'lg'}`; dict lookup, `none`
models `KeyError`. -/
def size_mapping (size : ℤ) : Option String :=
  if size = 35 then some "sm"
  else if size = 70 then some "med"
  else if size = 105 then some "lg"
  else none

/-- `color_mapping = {'red': '#D81B60', 'green': '#009E73', 'blue': '#1E88E5',
'yellow': '#FFC107'}`; dict lookup, `none` models `KeyError`. -/
def color_mapping (color : String) : Option String :=
  if color = "red" then some "#D81B60"
  else if color = "green" then some "#009E73"
  else if color = "blue" then some "#1E88E5"
  else if color = "yellow" then some "#FFC107"
  else none

/-- `canvas_size = 220`. -/
def canvas_size : ℤ := 220

/-- The placement centers of `save_shape`: the lists assigned to `centers`
in the `cardinality in [2, 3, 4]` branch, and the single
`(canvas_size // 2, canvas_size // 2)` center of the `else` branch. -/
def centers (cardinality : ℤ) : List (ℤ × ℤ) :=
  if cardinality = 2 then
    [(canvas_size.fdiv 2, canvas_size.fdiv 4), (canvas_size.fdiv 2, (3 * canvas_size).fdiv 4)]
  else if cardinality = 3 then
    [(canvas_size.fdiv 2, canvas_size.fdiv 4),
     (canvas_size.fdiv 4, (3 * canvas_size).fdiv 4),
     ((3 * canvas_size).fdiv 4, (3 * canvas_size).fdiv 4)]
  else if cardinality = 4 then
    [(canvas_size.fdiv 4, canvas_size.fdiv 4),
     ((3 * canvas_size).fdiv 4, canvas_size.fdiv 4),
     (canvas_size.fdiv 4, (3 * canvas_size).fdiv 4),
     ((3 * canvas_size).fdiv 4, (3 * canvas_size).fdiv 4)]
  else
    [(canvas_size.fdiv 2, canvas_size.fdiv 2)]

/-- The `else` branch of `save_shape` (cardinality not in `[2, 3, 4]`):
an `if/elif` chain over the shape tag that calls the shape functions
directly, drawing nothing when no branch matches. -/
noncomputable def single_instance_branch (center : ℤ × ℤ) (shape : String) (size : ℤ)
    (hex_color : String) : List DrawOp :=
  if shape = "circle" then [draw_circle center (size.fdiv 2) hex_color]
  else if shape = "square" then [draw_square center size hex_color]
  else if shape = "triangle" then [draw_triangle center size hex_color]
  else if shape = "star" then [draw_star center size hex_color]
  else []

/-- `save_shape(shape, size, color, cardinality, background_color)`.
Result: `Except.error` models the uncaught `KeyError` of a failed size or
color lookup (raised before the canvas is created, so nothing is drawn and
no file is written); `Except.ok (ops, filename)` models a completed call
that painted `ops` over the `background_color`-filled 220×220 canvas and
wrote the file `filename`. -/
noncomputable def save_shape (shape : String) (size : ℤ) (color : String) (cardinality : ℤ)
    (background_color : String) : Except String (List DrawOp × String) :=
  match size_mapping size with
  | none => Except.error "KeyError: size"
  | some word_size =>
    match color_mapping color with
    | none => Except.error "KeyError: color"
    | some hex_color =>
      if cardinality ∈ ([2, 3, 4] : List ℤ) then
        let ops := (centers cardinality).flatMap (fun c => draw_shape shape c size hex_color)
        let filename := word_size ++ "-" ++ color ++ "-" ++ shape ++ "-" ++ toString cardinality
        let filename := if background_color ≠ "white" then filename ++ "-" ++ background_color
          else filename
        Except.ok (ops, filename ++ ".webp")
      else
        let ops := single_instance_branch (canvas_size.fdiv 2, canvas_size.fdiv 2) shape size
          hex_color
        let filename := word_size ++ "-" ++ color ++ "-" ++ shape
        let filename := if background_color ≠ "white" then filename ++ "-" ++ background_color
          else filename
        Except.ok (ops, filename ++ ".webp")

/-- Membership in the closed disc of radius `r` around a placement center
(coordinates as rationals; `52.5 = 105/2` is rational). -/
def inDisc (p : ℚ × ℚ) (c : ℤ × ℤ) (r : ℚ) : Prop :=
  (p.1 - (c.1 : ℚ)) ^ 2 + (p.2 - (c.2 : ℚ)) ^ 2 ≤ r ^ 2

/-- Membership in the closed axis-aligned square of half-side `r` around a
placement center. -/
def inBox (p : ℚ × ℚ) (c : ℤ × ℤ) (r : ℚ) : Prop :=
  |p.1 - (c.1 : ℚ)| ≤ r ∧ |p.2 - (c.2 : ℚ)| ≤ r

/-! Helper lemmas shared by the claim theorems. -/

lemma single_instance_branch_eq_draw_shape (center : ℤ × ℤ) (shape : String) (size : ℤ)
    (hex_color : String) :
    single_instance_branch center shape size hex_color = draw_shape shape center size hex_color :=
  rfl

lemma size_mapping_eq_none (size : ℤ) (h : size ∉ ([35, 70, 105] : List ℤ)) :
    size_mapping size = none := by
  simp only [List.mem_cons, List.not_mem_nil, or_false, not_or] at h
  simp [size_mapping, h.1, h.2.1, h.2.2]

lemma color_mapping_eq_none (color : String) (h : color ∉ (["red", "green", "blue", "yellow"] : List String)) :
    color_mapping color = none := by
  simp only [List.mem_cons, List.not_mem_nil, or_false, not_or] at h
  simp [color_mapping, h.1, h.2.1, h.2.2.1, h.2.2.2]

/-- C6: dispatching a circle through `draw_shape` issues exactly one filled
ellipse whose bounding box is `[cx - r, cy - r, cx + r, cy + r]` with
`r = size // 2` (floor division). -/
theorem sds_C6_circle_bounding_box (cx cy size : ℤ) (color : String) :
    draw_shape "circle" (cx, cy) size color =
      [DrawOp.ellipse [cx - size.fdiv 2, cy - size.fdiv 2, cx + size.fdiv 2, cy + size.fdiv 2]
        color] := by
  simp [draw_shape, draw_circle]

/-- C7: for a shape tag outside {circle, square, triangle, star} the
dispatch function draws nothing and raises no error: it returns the empty
command list, leaving the canvas unchanged. -/
theorem sds_C7_unknown_shape_noop (shape : String) (center : ℤ × ℤ) (size : ℤ) (color : String)
    (h : shape ∉ (["circle", "square", "triangle", "star"] : List String)) :
    draw_shape shape center size color = [] := by
  simp only [List.mem_cons, List.not_mem_nil, or_false, not_or] at h
  simp [draw_shape, h.1, h.2.1, h.2.2.1, h.2.2.2]

/-- C7 witness: the tag "hexagon" is not recognized and draws nothing. -/
theorem sds_C7_unknown_shape_noop_witness :
    draw_shape "hexagon" (0, 0) 35 "red" = [] :=
  sds_C7_unknown_shape_noop "hexagon" (0, 0) 35 "red" (by decide)

/-- C9: for each of the four recognized shape tags, the direct `if/elif`
chain of the cardinality-1 branch of `save_shape` issues exactly the same
drawing commands as the generic dispatch `draw_shape` at the same center
(110, 110), size, and color — so the two paths are pixel-identical. -/
theorem sds_C9_single_branch_refines_dispatch (shape : String) (size : ℤ) (hex_color : String)
    (_h : shape ∈ (["circle", "square", "triangle", "star"] : List String)) :
    single_instance_branch (110, 110) shape size hex_color =
      draw_shape shape (110, 110) size hex_color :=
  single_instance_branch_eq_draw_shape (110, 110) shape size hex_color

/-- C9 witness: the two dispatch paths agree for a concrete tuple. -/
theorem sds_C9_single_branch_refines_dispatch_witness :
    single_instance_branch (110, 110) "circle" 35 "#D81B60" =
      draw_shape "circle" (110, 110) 35 "#D81B60" :=
  sds_C9_single_branch_refines_dispatch "circle" 35 "#D81B60" (by decide)

/-- C1: with a valid size and color, the filename is
`{sizeLabel}-{colorName}-{shapeTag}` at cardinality 1 and
`{sizeLabel}-{colorName}-{shapeTag}-{cardinality}` at cardinality 2, 3, or
4, with `-{backgroundColor}` appended exactly when the background is not
"white", followed by ".webp". -/
theorem sds_C1_filename_scheme (shape : String) (size : ℤ) (color : String) (cardinality : ℤ)
    (background_color word_size hex_color : String)
    (h1 : size_mapping size = some word_size) (h2 : color_mapping color = some hex_color) :
    (cardinality = 1 →
      (save_shape shape size color cardinality background_color).map Prod.snd =
        Except.ok (word_size ++ "-" ++ color ++ "-" ++ shape ++
          (if background_color ≠ "white" then "-" ++ background_color else "") ++ ".webp")) ∧
    (cardinality ∈ ([2, 3, 4] : List ℤ) →
      (save_shape shape size color cardinality background_color).map Prod.snd =
        Except.ok (word_size ++ "-" ++ color ++ "-" ++ shape ++ "-" ++ toString cardinality ++
          (if background_color ≠ "white" then "-" ++ background_color else "") ++ ".webp")) := by
  constructor
  · rintro rfl
    simp only [save_shape, h1, h2, List.mem_cons, List.not_mem_nil, or_false]
    rw [if_neg (by decide)]
    split
    · simp [Except.map, String.append_assoc]
    · simp [Except.map]
  · intro hc
    simp only [save_shape, h1, h2, if_pos hc]
    split
    · simp [Except.map, String.append_assoc]
    · simp [Except.map]

/-- C1 witness: the two filename examples from the specification. -/
theorem sds_C1_filename_scheme_witness :
    (save_shape "star" 70 "blue" 3 "white").map Prod.snd = Except.ok "med-blue-star-3.webp" ∧
    (save_shape "circle" 35 "red" 1 "black").map Prod.snd =
      Except.ok "sm-red-circle-black.webp" := by
  constructor
  · rw [(sds_C1_filename_scheme "star" 70 "blue" 3 "white" "med" "#1E88E5" rfl rfl).2
      (by decide)]
    rfl
  · rw [(sds_C1_filename_scheme "circle" 35 "red" 1 "black" "sm" "#D81B60" rfl rfl).1 rfl]
    rfl

/-- C3: a size outside {35, 70, 105} or a color outside
{red, green, blue, yellow} makes the dictionary lookup fail (`none`, the
model of `KeyError`), so `save_shape` aborts with an error: nothing is
drawn and no file is written — there is no fallback or default. -/
theorem sds_C3_lookup_error (shape : String) (size : ℤ) (color : String) (cardinality : ℤ)
    (background_color : String)
    (h : size ∉ ([35, 70, 105] : List ℤ) ∨
      color ∉ (["red", "green", "blue", "yellow"] : List String)) :
    (size_mapping size = none ∨ color_mapping color = none) ∧
    ∃ msg, save_shape shape size color cardinality background_color = Except.error msg := by
  rcases h with h | h
  · have hs := size_mapping_eq_none size h
    exact ⟨Or.inl hs, "KeyError: size", by simp [save_shape, hs]⟩
  · have hc := color_mapping_eq_none color h
    refine ⟨Or.inr hc, ?_⟩
    cases hsz : size_mapping size with
    | none => exact ⟨"KeyError: size", by simp [save_shape, hsz]⟩
    | some w => exact ⟨"KeyError: color", by simp [save_shape, hsz, hc]⟩

/-- C3 witness: the invalid size 50 and the invalid color "purple" from
the specification each abort with a lookup error. -/
theorem sds_C3_lookup_error_witness :
    ((size_mapping 50 = none ∨ color_mapping "red" = none) ∧
      ∃ msg, save_shape "circle" 50 "red" 1 "white" = Except.error msg) ∧
    ((size_mapping 35 = none ∨ color_mapping "purple" = none) ∧
      ∃ msg, save_shape "circle" 35 "purple" 1 "white" = Except.error msg) :=
  ⟨sds_C3_lookup_error "circle" 50 "red" 1 "white" (Or.inl (by decide)),
   sds_C3_lookup_error "circle" 35 "purple" 1 "white" (Or.inr (by decide))⟩

/-- C10: any cardinality outside {2, 3, 4} — 0, 5, negative values, not
only 1 — takes the single-instance branch: one shape drawn by the direct
chain at center (110, 110), a filename without cardinality suffix, and a
result identical to the cardinality-1 call. -/
theorem sds_C10_default_branch (shape : String) (size : ℤ) (color : String) (cardinality : ℤ)
    (background_color word_size hex_color : String)
    (h : cardinality ∉ ([2, 3, 4] : List ℤ))
    (h1 : size_mapping size = some word_size) (h2 : color_mapping color = some hex_color) :
    save_shape shape size color cardinality background_color =
      save_shape shape size color 1 background_color ∧
    save_shape shape size color cardinality background_color =
      Except.ok (single_instance_branch (110, 110) shape size hex_color,
        (if background_color ≠ "white" then
          word_size ++ "-" ++ color ++ "-" ++ shape ++ "-" ++ background_color
         else word_size ++ "-" ++ color ++ "-" ++ shape) ++ ".webp") := by
  have hcv : canvas_size.fdiv 2 = (110 : ℤ) := by decide
  constructor
  · simp only [save_shape, if_neg h, if_neg (by decide : ¬(1 : ℤ) ∈ ([2, 3, 4] : List ℤ))]
  · simp only [save_shape, h1, h2, if_neg h, hcv]

/-- C10 witness: cardinality 0 behaves exactly like cardinality 1. -/
theorem sds_C10_default_branch_witness :
    save_shape "circle" 35 "red" 0 "white" = save_shape "circle" 35 "red" 1 "white" ∧
    save_shape "circle" 35 "red" 0 "white" =
      Except.ok (single_instance_branch (110, 110) "circle" 35 "#D81B60",
        (if ("white" : String) ≠ "white" then "sm" ++ "-" ++ "red" ++ "-" ++ "circle" ++ "-" ++ "white"
         else "sm" ++ "-" ++ "red" ++ "-" ++ "circle") ++ ".webp") :=
  sds_C10_default_branch "circle" 35 "red" 0 "white" "sm" "#D81B60" (by decide) rfl rfl

/-- C2: with a valid size and color, `save_shape` draws the shape at
exactly the centers determined by the cardinality on the 220×220 canvas:
(110, 110) for 1; (110, 55), (110, 165) for 2; (110, 55), (55, 165),
(165, 165) for 3; (55, 55), (165, 55), (55, 165), (165, 165) for 4. -/
theorem sds_C2_layout_centers (shape : String) (size : ℤ) (color : String) (cardinality : ℤ)
    (background_color word_size hex_color : String)
    (h1 : size_mapping size = some word_size) (h2 : color_mapping color = some hex_color)
    (hc : cardinality ∈ ([1, 2, 3, 4] : List ℤ)) :
    canvas_size = 220 ∧
    centers 1 = [(110, 110)] ∧
    centers 2 = [(110, 55), (110, 165)] ∧
    centers 3 = [(110, 55), (55, 165), (165, 165)] ∧
    centers 4 = [(55, 55), (165, 55), (55, 165), (165, 165)] ∧
    (save_shape shape size color cardinality background_color).map Prod.fst =
      Except.ok ((centers cardinality).flatMap (fun c => draw_shape shape c size hex_color)) := by
  refine ⟨rfl, by decide, by decide, by decide, by decide, ?_⟩
  rcases show cardinality = 1 ∨ cardinality = 2 ∨ cardinality = 3 ∨ cardinality = 4 by
    simpa using hc with rfl | rfl | rfl | rfl
  · simp [save_shape, h1, h2, Except.map, single_instance_branch_eq_draw_shape,
      show centers 1 = [((110 : ℤ), (110 : ℤ))] from by decide,
      show canvas_size.fdiv 2 = (110 : ℤ) from by decide]
  · simp [save_shape, h1, h2, Except.map]
  · simp [save_shape, h1, h2, Except.map]
  · simp [save_shape, h1, h2, Except.map]

/-- C2 witness: a concrete cardinality-3 stimulus uses the three documented
centers. -/
theorem sds_C2_layout_centers_witness :
    canvas_size = 220 ∧
    centers 1 = [(110, 110)] ∧
    centers 2 = [(110, 55), (110, 165)] ∧
    centers 3 = [(110, 55), (55, 165), (165, 165)] ∧
    centers 4 = [(55, 55), (165, 55), (55, 165), (165, 165)] ∧
    (save_shape "star" 70 "blue" 3 "white").map Prod.fst =
      Except.ok ((centers 3).flatMap (fun c => draw_shape "star" c 70 "#1E88E5")) :=
  sds_C2_layout_centers "star" 70 "blue" 3 "white" "med" "#1E88E5" rfl rfl (by decide)

lemma coordinate_gap_disc (a c r q1 q2 p : ℚ) (hgap : 110 ≤ |a - c|) (hr0 : 0 ≤ r)
    (hr : r ≤ 105 / 2) (hq1 : 0 ≤ q1) (hq2 : 0 ≤ q2)
    (h1 : (p - a) ^ 2 + q1 ≤ r ^ 2) (h2 : (p - c) ^ 2 + q2 ≤ r ^ 2) : False := by
  have h12 : (110 : ℚ) ^ 2 ≤ (a - c) ^ 2 := by
    rw [← sq_abs (a - c)]
    exact pow_le_pow_left₀ (by norm_num) hgap 2
  nlinarith [sq_nonneg (2 * p - a - c), mul_le_mul hr hr hr0 (by norm_num : (0:ℚ) ≤ 105 / 2)]

lemma coordinate_gap_box (a c r p : ℚ) (hgap : 110 ≤ |a - c|) (hr : r ≤ 105 / 2)
    (h1 : |p - a| ≤ r) (h2 : |p - c| ≤ r) : False := by
  have ht : |a - c| ≤ |a - p| + |p - c| := abs_sub_le a p c
  rw [abs_sub_comm a p] at ht
  linarith

/-- C8: any two distinct placement centers of the same stimulus differ by
at least 110 pixels in some coordinate (in particular the cardinality-4
quadrant grid has 110-pixel spacing), so per-instance bounding discs and
bounding squares of radius at most 52.5 = 105/2 pixels — which covers
every size in {35, 70, 105} — never intersect. -/
theorem sds_C8_layout_nonoverlap (cardinality : ℤ) (hc : cardinality ∈ ([1, 2, 3, 4] : List ℤ))
    (r : ℚ) (hr0 : 0 ≤ r) (hr : r ≤ 105 / 2) (c₁ c₂ : ℤ × ℤ)
    (h1 : c₁ ∈ centers cardinality) (h2 : c₂ ∈ centers cardinality) (hne : c₁ ≠ c₂)
    (p : ℚ × ℚ) :
    (inDisc p c₁ r → ¬ inDisc p c₂ r) ∧ (inBox p c₁ r → ¬ inBox p c₂ r) ∧
    centers 4 = [(55, 55), (165, 55), (55, 165), (165, 165)] ∧
    (∀ a ∈ centers 4, ∀ b ∈ centers 4, a ≠ b → 110 ≤ max |a.1 - b.1| |a.2 - b.2|) := by
  have hgap : 110 ≤ |c₁.1 - c₂.1| ∨ 110 ≤ |c₁.2 - c₂.2| := by
    rcases show cardinality = 1 ∨ cardinality = 2 ∨ cardinality = 3 ∨ cardinality = 4 by
      simpa using hc with rfl | rfl | rfl | rfl
    · rw [show centers 1 = [((110 : ℤ), (110 : ℤ))] from by decide] at h1 h2
      fin_cases h1
      fin_cases h2
      exact absurd rfl hne
    · rw [show centers 2 = [((110 : ℤ), (55 : ℤ)), (110, 165)] from by decide] at h1 h2
      fin_cases h1 <;> fin_cases h2 <;> first | exact absurd rfl hne | decide
    · rw [show centers 3 = [((110 : ℤ), (55 : ℤ)), (55, 165), (165, 165)] from by decide]
        at h1 h2
      fin_cases h1 <;> fin_cases h2 <;> first | exact absurd rfl hne | decide
    · rw [show centers 4 = [((55 : ℤ), (55 : ℤ)), (165, 55), (55, 165), (165, 165)] from
        by decide] at h1 h2
      fin_cases h1 <;> fin_cases h2 <;> first | exact absurd rfl hne | decide
  refine ⟨?_, ?_, by decide, by decide⟩
  · intro hd1 hd2
    unfold inDisc at hd1 hd2
    rcases hgap with hg | hg
    · exact coordinate_gap_disc c₁.1 c₂.1 r _ _ p.1 (by exact_mod_cast hg) hr0 hr
        (sq_nonneg _) (sq_nonneg _) hd1 hd2
    · exact coordinate_gap_disc c₁.2 c₂.2 r ((p.1 - (c₁.1 : ℚ)) ^ 2) ((p.1 - (c₂.1 : ℚ)) ^ 2)
        p.2 (by exact_mod_cast hg) hr0 hr (sq_nonneg _) (sq_nonneg _) (by linarith)
        (by linarith)
  · intro hb1 hb2
    rcases hgap with hg | hg
    · exact coordinate_gap_box c₁.1 c₂.1 r p.1 (by exact_mod_cast hg) hr hb1.1 hb2.1
    · exact coordinate_gap_box c₁.2 c₂.2 r p.2 (by exact_mod_cast hg) hr hb1.2 hb2.2

/-- C8 witness: at the largest radius 52.5, the disc around quadrant
center (55, 55) excludes every point of the disc around (165, 55); the
point (55, 55) itself is in the first disc, hence not in the second. -/
theorem sds_C8_layout_nonoverlap_witness : ¬ inDisc (55, 55) (165, 55) (105 / 2) :=
  (sds_C8_layout_nonoverlap 4 (by decide) (105 / 2) (by norm_num) (by norm_num)
      (55, 55) (165, 55) (by decide) (by decide) (by decide) (55, 55)).1
    (by norm_num [inDisc])

/-- C4 counterexample: at center (0, 0) and size 35 the first star vertex
has squared distance 17² = 289 from the center — not (size/2)² = (35/2)²
as the claim's outer radius size/2 would give (the code uses the integer
`size // 2 = 17`) — and its x-coordinate is not 0, although an outer
vertex placed exactly at angle −π/2 would have x-coordinate 0 (the code
uses the constant 3.14159, not π). -/
theorem sds_C4_star_claim_counterexample :
    ((polygonVertices (draw_star (0, 0) 35 "red"))[0]?).map
        (fun p => p.1 ^ 2 + p.2 ^ 2) = some 289 ∧
    (289 : ℝ) ≠ (35 / 2) ^ 2 ∧
    ((polygonVertices (draw_star (0, 0) 35 "red"))[0]?).map Prod.fst ≠ some 0 := by
  refine ⟨?_, by norm_num, ?_⟩
  · simp [draw_star, polygonVertices, List.range_succ]
    nlinarith [Real.sin_sq_add_cos_sq ((3.14159 / 2 : ℝ)),
      Real.sin_sq_add_cos_sq ((314159 / 200000 : ℝ))]
  · have hcos : 0 < Real.cos (3.14159 / 2) := by
      apply Real.cos_pos_of_mem_Ioo
      constructor
      · have := Real.pi_pos
        norm_num
        linarith
      · have := Real.pi_gt_d6
        norm_num
        linarith
    simp [draw_star, polygonVertices, List.range_succ, Real.cos_neg]
    intro h
    nlinarith [hcos]

/-- C4 (amended): the star polygon has exactly 10 vertices, emitted
alternately outer, inner, outer, inner, … as one closed polygon; outer
vertex i (0-indexed) lies at squared distance (size // 2)² from the
center at angle i·(2·3.14159/5) − 3.14159/2, and inner vertex i lies at
squared distance (0.5·(size // 2))² at that angle + 3.14159/5 — i.e. the
claim holds with the radius size/2 replaced by the integer quotient
size // 2 and π replaced by the source's constant 3.14159. -/
theorem sds_C4_star_geometry (x y size : ℤ) (color : String) :
    draw_shape "star" (x, y) size color = [draw_star (x, y) size color] ∧
    draw_star (x, y) size color =
      DrawOp.polygon (polygonVertices (draw_star (x, y) size color)) color ∧
    (polygonVertices (draw_star (x, y) size color)).length = 10 ∧
    (∀ i : Fin 5,
      (polygonVertices (draw_star (x, y) size color))[(2 * (i : ℕ))]? =
        some ((x : ℝ) + ((size.fdiv 2 : ℤ) : ℝ) *
                Real.cos (((i : ℕ) : ℝ) * (2 * 3.14159 / 5) - 3.14159 / 2),
              (y : ℝ) + ((size.fdiv 2 : ℤ) : ℝ) *
                Real.sin (((i : ℕ) : ℝ) * (2 * 3.14159 / 5) - 3.14159 / 2)) ∧
      (polygonVertices (draw_star (x, y) size color))[(2 * (i : ℕ) + 1)]? =
        some ((x : ℝ) + ((size.fdiv 2 : ℤ) : ℝ) * 0.5 *
                Real.cos (((i : ℕ) : ℝ) * (2 * 3.14159 / 5) - 3.14159 / 2 + 3.14159 / 5),
              (y : ℝ) + ((size.fdiv 2 : ℤ) : ℝ) * 0.5 *
                Real.sin (((i : ℕ) : ℝ) * (2 * 3.14159 / 5) - 3.14159 / 2 + 3.14159 / 5))) ∧
    (∀ i : Fin 5,
      ((polygonVertices (draw_star (x, y) size color))[(2 * (i : ℕ))]?).map
          (fun p => (p.1 - (x : ℝ)) ^ 2 + (p.2 - (y : ℝ)) ^ 2) =
        some ((((size.fdiv 2 : ℤ) : ℝ)) ^ 2) ∧
      ((polygonVertices (draw_star (x, y) size color))[(2 * (i : ℕ) + 1)]?).map
          (fun p => (p.1 - (x : ℝ)) ^ 2 + (p.2 - (y : ℝ)) ^ 2) =
        some ((((size.fdiv 2 : ℤ) : ℝ) * 0.5) ^ 2)) := by
  have hvert : ∀ i : Fin 5,
      (polygonVertices (draw_star (x, y) size color))[(2 * (i : ℕ))]? =
        some ((x : ℝ) + ((size.fdiv 2 : ℤ) : ℝ) *
                Real.cos (((i : ℕ) : ℝ) * (2 * 3.14159 / 5) - 3.14159 / 2),
              (y : ℝ) + ((size.fdiv 2 : ℤ) : ℝ) *
                Real.sin (((i : ℕ) : ℝ) * (2 * 3.14159 / 5) - 3.14159 / 2)) ∧
      (polygonVertices (draw_star (x, y) size color))[(2 * (i : ℕ) + 1)]? =
        some ((x : ℝ) + ((size.fdiv 2 : ℤ) : ℝ) * 0.5 *
                Real.cos (((i : ℕ) : ℝ) * (2 * 3.14159 / 5) - 3.14159 / 2 + 3.14159 / 5),
              (y : ℝ) + ((size.fdiv 2 : ℤ) : ℝ) * 0.5 *
                Real.sin (((i : ℕ) : ℝ) * (2 * 3.14159 / 5) - 3.14159 / 2 + 3.14159 / 5)) :=
    fun i => by fin_cases i <;> exact ⟨by simp [draw_star, polygonVertices, List.range_succ],
      by simp [draw_star, polygonVertices, List.range_succ]⟩
  refine ⟨by simp [draw_shape], by simp [draw_star, polygonVertices], ?_, hvert, ?_⟩
  · simp [draw_star, polygonVertices, List.range_succ]
  · intro i
    constructor
    · rw [(hvert i).1]
      simp only [Option.map_some']
      congr 1
      linear_combination ((size.fdiv 2 : ℤ) : ℝ) ^ 2 *
        Real.sin_sq_add_cos_sq (((i : ℕ) : ℝ) * (2 * 3.14159 / 5) - 3.14159 / 2)
    · rw [(hvert i).2]
      simp only [Option.map_some']
      congr 1
      linear_combination (((size.fdiv 2 : ℤ) : ℝ) ^ 2 / 4) *
        Real.sin_sq_add_cos_sq (((i : ℕ) : ℝ) * (2 * 3.14159 / 5) - 3.14159 / 2 + 3.14159 / 5)

/-- C5 counterexample: at center (0, 0) and size 35 the triangle's base
corners sit at x = ∓17 (the integer `size // 2`), not at ∓35/2 = ∓17.5 as
the claim's "±size/2 horizontally" states. -/
theorem sds_C5_triangle_claim_counterexample :
    (polygonVertices (draw_triangle (0, 0) 35 "red")).map Prod.fst = [0, -17, 17] ∧
    (-17 : ℝ) ≠ -(35 / 2) := by
  constructor
  · simp [draw_triangle, polygonVertices]
  · norm_num

/-- C5 (amended): the triangle polygon has an apex above the center by
⌊height/2⌋ with height = size·(√3/2) and base corners offset below the
center by the same ⌊height/2⌋ — but horizontally the corners sit at
±(size // 2) (the same integer-division truncation as the square's
half-size), not at the exact ±size/2. -/
theorem sds_C5_triangle_geometry (x y size : ℤ) (color : String) :
    draw_shape "triangle" (x, y) size color =
      [DrawOp.polygon
        [((x : ℝ), (y : ℝ) - ((⌊(size : ℝ) * (Real.sqrt 3 / 2) / 2⌋ : ℤ) : ℝ)),
         ((x : ℝ) - ((size.fdiv 2 : ℤ) : ℝ),
          (y : ℝ) + ((⌊(size : ℝ) * (Real.sqrt 3 / 2) / 2⌋ : ℤ) : ℝ)),
         ((x : ℝ) + ((size.fdiv 2 : ℤ) : ℝ),
          (y : ℝ) + ((⌊(size : ℝ) * (Real.sqrt 3 / 2) / 2⌋ : ℤ) : ℝ))]
        color] := by
  simp [draw_shape, draw_triangle]
